import Mathlib

/-!
Shallow embedding of the learned cardinality estimator
(`src/usecases/optimizer/cardinality_estimator.py`) and the filter-model
training script (`src/tools/learned_filter/train_model.py`).

Modelling conventions:
* Python floats are modelled as rationals (`ℚ`); the constants involved
  (0.1, 0.5, 0.3, 0.001, 1000, ...) and the products the claims are about
  are exact in both models.
* Python `Dict[str, Any]` queries are modelled as a structure whose fields
  are `Option`-valued: `none` means the key is absent, so `dict.get(k, d)`
  becomes `Option.getD`.  `Query.keys` returns the present keys in the
  fixed order in which every query literal in the source inserts them.
* `datetime.now()` is modelled by an explicit `Clock` argument carrying
  the hour and weekday read from the wall clock.
* The fitted XGBoost regressor is opaque: it is a parameter of type
  `Features → ℝ` (the raw log-space score `model.predict` returns).
* Python's `int(x)` on a float truncates toward zero: `ratTrunc` /
  `realTrunc` below.
-/

namespace CardEst

/-- One member of a query's `filters` list.  The source only ever reads
`f.get('operator', '=')`; the `column` key is carried for fidelity and
the `value` key (arbitrary payload) is irrelevant to every code path. -/
structure Filter where
  column : Option String
  operator : Option String
  deriving DecidableEq, Repr

/-- The `table_stats` sub-dictionary; both keys may be absent. -/
structure TableStats where
  row_count : Option ℚ
  distinct_count : Option ℚ
  deriving DecidableEq, Repr

/-- A query dictionary.  Only the lengths of `joins`, `aggregations` and
`sort` are ever consumed, so their elements are `Unit`. -/
structure Query where
  filters : Option (List Filter)
  joins : Option (List Unit)
  aggregations : Option (List Unit)
  sort : Option (List Unit)
  table_stats : Option TableStats
  deriving DecidableEq, Repr

/-- `list(query.keys())`: the keys present in the dictionary, in the
insertion order used by every query literal in the source. -/
def Query.keys (q : Query) : List String :=
  (if q.filters.isSome then ["filters"] else []) ++
  (if q.joins.isSome then ["joins"] else []) ++
  (if q.aggregations.isSome then ["aggregations"] else []) ++
  (if q.sort.isSome then ["sort"] else []) ++
  (if q.table_stats.isSome then ["table_stats"] else [])

/-- The wall-clock reading `datetime.now()` delivers: `hour` and
`weekday`. -/
structure Clock where
  hour : Nat
  weekday : Nat
  deriving DecidableEq, Repr

/-- The feature dictionary `FeatureExtractor.extract` returns, with its
eleven entries in insertion order. -/
structure Features where
  num_filters : ℚ
  num_joins : ℚ
  num_aggregations : ℚ
  filter_selectivity : ℚ
  table_size : ℚ
  table_ndv : ℚ
  hour_of_day : ℚ
  day_of_week : ℚ
  correlated_columns : ℚ
  complexity_score : ℚ
  has_indexes : ℚ
  deriving DecidableEq, Repr

/-- The ordered key list of the feature dictionary built by `extract`. -/
def featureNames : List String :=
  ["num_filters", "num_joins", "num_aggregations", "filter_selectivity",
   "table_size", "table_ndv", "hour_of_day", "day_of_week",
   "correlated_columns", "complexity_score", "has_indexes"]

/-- `list(features.values())`, in the same insertion order. -/
def featureValues (f : Features) : List ℚ :=
  [f.num_filters, f.num_joins, f.num_aggregations, f.filter_selectivity,
   f.table_size, f.table_ndv, f.hour_of_day, f.day_of_week,
   f.correlated_columns, f.complexity_score, f.has_indexes]

/-- The per-filter selectivity multiplier of the loop body of
`_estimate_filter_selectivity`: `op = f.get('operator', '=')`, then
0.1 for `=`, 0.5 for the four range comparisons, 0.3 for `LIKE`, and no
change otherwise. -/
def filterMultiplier (f : Filter) : ℚ :=
  let op := f.operator.getD "="
  if op = "=" then 1/10
  else if op = "<" ∨ op = ">" ∨ op = "<=" ∨ op = ">=" then 1/2
  else if op = "LIKE" then 3/10
  else 1

/-- `FeatureExtractor._estimate_filter_selectivity`: returns 1.0 for an
empty filter list, otherwise multiplies the per-filter factors starting
from 1.0 and floors the result at 0.001. -/
def estimate_filter_selectivity (filters : List Filter) : ℚ :=
  if filters = [] then 1
  else max (filters.foldl (fun s f => s * filterMultiplier f) 1) (1/1000)

/-- `FeatureExtractor._detect_correlations`: placeholder returning 0.0;
it never reads or writes `correlation_cache`. -/
def detect_correlations (_q : Query) : ℚ := 0

/-- `FeatureExtractor._calculate_complexity`. -/
def calculate_complexity (q : Query) : ℚ :=
  ((q.filters.getD []).length : ℚ) * 1 +
  ((q.joins.getD []).length : ℚ) * 2 +
  ((q.aggregations.getD []).length : ℚ) * (3/2) +
  ((q.sort.getD []).length : ℚ) * (1/2)

/-- `FeatureExtractor._check_indexes`: placeholder returning 1.0. -/
def check_indexes (_q : Query) : ℚ := 1

/-- `FeatureExtractor.extract`.  The two `datetime.now()` reads are
modelled by the single `now` argument (one wall-clock reading). -/
def extract (now : Clock) (q : Query) : Features :=
  let filters := q.filters.getD []
  let joins := q.joins.getD []
  let aggregations := q.aggregations.getD []
  let table_stats := q.table_stats.getD ⟨none, none⟩
  { num_filters := filters.length
    num_joins := joins.length
    num_aggregations := aggregations.length
    filter_selectivity := estimate_filter_selectivity filters
    table_size := table_stats.row_count.getD 0
    table_ndv := table_stats.distinct_count.getD 0
    hour_of_day := now.hour
    day_of_week := now.weekday
    correlated_columns := detect_correlations q
    complexity_score := calculate_complexity q
    has_indexes := check_indexes q }

/-- Python `int(x)` on a rational-valued float: truncation toward 0. -/
def ratTrunc (x : ℚ) : ℤ := if 0 ≤ x then ⌊x⌋ else ⌈x⌉

/-- Python `int(x)` on a real: truncation toward 0. -/
noncomputable def realTrunc (x : ℝ) : ℤ := if 0 ≤ x then ⌊x⌋ else ⌈x⌉

/-- `np.log1p`. -/
noncomputable def log1p (x : ℝ) : ℝ := Real.log (1 + x)

/-- `np.expm1`. -/
noncomputable def expm1 (x : ℝ) : ℝ := Real.exp x - 1

/-- The final bounds line of `estimate`:
`max(1, min(cardinality, 10_000_000))`. -/
def clampCardinality (c : ℤ) : ℤ := max 1 (min c 10000000)

/-- The opaque fitted regressor: maps a feature vector to the raw
log-space score of `model.predict`. -/
abbrev Predictor : Type := Features → ℝ

/-- The mutable state of a `LearnedCardinalityEstimator`: its `model`,
`feature_names` and `is_trained` fields.  `M` is the type of the model
slot (instantiated with `Predictor` for estimation, and with an
arbitrary inhabited type when only the field plumbing matters). -/
structure EstimatorSt (M : Type) where
  model : M
  feature_names : List String
  is_trained : Bool
  deriving DecidableEq

/-- `LearnedCardinalityEstimator._fallback_estimate`:
`int(table_size * 0.5 ** num_filters)` with
`table_size = query.get('table_stats', {}).get('row_count', 1000)`. -/
def fallback_estimate (q : Query) : ℤ :=
  let table_size : ℚ := (q.table_stats.getD ⟨none, none⟩).row_count.getD 1000
  let num_filters := (q.filters.getD []).length
  ratTrunc (table_size * (1/2) ^ num_filters)

/-- `LearnedCardinalityEstimator.estimate`: fallback when untrained,
otherwise predict in log space, invert with `expm1`, truncate with
`int`, and clamp to `[1, 10_000_000]`. -/
noncomputable def estimate (now : Clock) (e : EstimatorSt Predictor) (q : Query) : ℤ :=
  if e.is_trained then
    let features := extract now q
    let log_card := e.model features
    let cardinality := realTrunc (expm1 log_card)
    clampCardinality cardinality
  else
    fallback_estimate q

/-- One `QueryLog` record (the unused `timestamp` field is omitted). -/
structure QueryLog where
  query : Query
  actual_cardinality : ℤ
  execution_time_ms : ℚ
  deriving DecidableEq

/-- What a successful `train` call leaves behind: the feature matrix
`X`, the log-transformed target vector `y`, and the estimator fields it
assigns (`feature_names`, `is_trained`).  The opaque `model.fit` call
consumes `X` and `y`. -/
structure TrainOutput where
  X : List (List ℚ)
  y : List ℝ
  feature_names : List String
  is_trained : Bool

/-- `LearnedCardinalityEstimator.train`: raises on an empty log list;
otherwise builds `X` from extracted feature values, `y` from
`log1p(actual_cardinality)`, and sets
`feature_names = list(query_logs[0].query.keys())` and
`is_trained = True`. -/
noncomputable def train (now : Clock) (logs : List QueryLog) : Except String TrainOutput :=
  if logs = [] then .error "No query logs provided for training"
  else
    .ok { X := logs.map fun l => featureValues (extract now l.query)
          y := logs.map fun l => log1p (l.actual_cardinality : ℝ)
          feature_names := match logs with
            | [] => []
            | l :: _ => l.query.keys
          is_trained := true }

/-- The unpickled `model_data` dictionary: each of the three keys may be
absent. -/
structure ModelData (M : Type) where
  model : Option M
  feature_names : Option (List String)
  is_trained : Option Bool
  deriving DecidableEq

/-- `LearnedCardinalityEstimator.save`: raises on an untrained model,
otherwise pickles all three fields. -/
def save {M : Type} (st : EstimatorSt M) : Except String (ModelData M) :=
  if st.is_trained then
    .ok { model := some st.model
          feature_names := some st.feature_names
          is_trained := some st.is_trained }
  else .error "Cannot save untrained model"

/-- `LearnedCardinalityEstimator.load`, with the field assignments made
sequential as in the source.  The artifact is `none` when unpickling
itself fails (missing/corrupt file, nothing assigned), and otherwise a
`ModelData` whose absent keys raise `KeyError` at their lookup.  The
result pairs the raised error (if any) with the estimator state as it
stands when control leaves `load` — capturing which assignments had
already happened. -/
def load {M : Type} (st : EstimatorSt M) (artifact : Option (ModelData M)) :
    Option String × EstimatorSt M :=
  match artifact with
  | none => (some "ModelLoadError", st)
  | some d =>
    match d.model with
    | none => (some "KeyError: model", st)
    | some m =>
      let st1 : EstimatorSt M := { st with model := m }
      match d.feature_names with
      | none => (some "KeyError: feature_names", st1)
      | some fns =>
        let st2 : EstimatorSt M := { st1 with feature_names := fns }
        match d.is_trained with
        | none => (some "KeyError: is_trained", st2)
        | some b => (none, { st2 with is_trained := b })

/-- Python's `str.strip()`: drop leading and trailing whitespace. -/
def strip (s : String) : String :=
  ((s.data.dropWhile Char.isWhitespace).reverse.dropWhile
    Char.isWhitespace).reverse.asString

/-- `load_query_logs` from `train_model.py`: strip each line, skip blank
lines, parse the rest, and skip lines the JSON parser rejects.  The
parser is the opaque `json.loads`, modelled as `String → Option R`. -/
def load_query_logs {R : Type} (parseJson : String → Option R) (lines : List String) :
    List R :=
  lines.filterMap fun line =>
    let t := strip line
    if t = "" then none else parseJson t

/-- How one run of the trainer's `main` ends.  `success` is the branch
that goes on to feature extraction, the train/test split, `fit`,
evaluation, feature-importance reporting and `save_model`; the other
two constructors exit via `sys.exit(1)` before any of those. -/
inductive TrainerOutcome where
  | missingFile
  | insufficientData (found needed : Nat)
  | success (numSamples : Nat)
  deriving DecidableEq, Repr

/-- The control flow of `main` in `train_model.py` after argument
parsing: exit 1 if the log file is missing; load the logs; exit 1
reporting the found count and the threshold if fewer than
`min_samples`; otherwise run the pipeline to completion. -/
def trainerMain {R : Type} (logFileExists : Bool) (parseJson : String → Option R)
    (lines : List String) (minSamples : Nat) : TrainerOutcome :=
  if ¬ logFileExists then .missingFile
  else
    let queries := load_query_logs parseJson lines
    if queries.length < minSamples then .insufficientData queries.length minSamples
    else .success queries.length

/-- The process exit code of each outcome. -/
def exitCode : TrainerOutcome → Nat
  | .missingFile => 1
  | .insufficientData _ _ => 1
  | .success _ => 0

/-- Whether a model artifact gets written (the `save_model` call is only
reached on the success path). -/
def modelSaved : TrainerOutcome → Bool
  | .success _ => true
  | _ => false

/-- Erase the two wall-clock-derived entries of a feature dictionary. -/
def clearTemporal (f : Features) : Features :=
  { f with hour_of_day := 0, day_of_week := 0 }

/-- The empty query dictionary `{}`. -/
def emptyQuery : Query := ⟨none, none, none, none, none⟩

/-- A wall-clock reading at hour 0, weekday 0. -/
def clk0 : Clock := ⟨0, 0⟩

/-- A wall-clock reading at hour 1, weekday 0. -/
def clk1 : Clock := ⟨1, 0⟩

/-- A predictor whose raw score is 0 everywhere. -/
noncomputable def zeroPredictor : Predictor := fun _ => 0

/-- An estimator that has not been trained. -/
noncomputable def untrainedEstimator : EstimatorSt Predictor := ⟨zeroPredictor, [], false⟩

/-- An estimator whose `is_trained` flag is set. -/
noncomputable def trainedEstimator : EstimatorSt Predictor := ⟨zeroPredictor, [], true⟩

/-- A query whose `table_stats.row_count` is 0. -/
def zeroRowQuery : Query := ⟨none, none, none, none, some ⟨some 0, none⟩⟩

/-- The second sample query of the source's `main`: two filters over a
table of 10000 rows. -/
def twoFilterQuery : Query :=
  ⟨some [⟨some "age", some ">"⟩, ⟨some "city", some "="⟩], some [], some [],
   none, some ⟨some 10000, some 5000⟩⟩

/-- The first sample `QueryLog` of the source's `main`. -/
def sampleLog : QueryLog :=
  ⟨⟨some [⟨some "age", some ">"⟩], some [], some [], none,
    some ⟨some 10000, some 5000⟩⟩, 3500, 241/2⟩

end CardEst

namespace CardEst

/-! ## Helper lemmas -/

theorem estimate_of_untrained (now : Clock) (e : EstimatorSt Predictor) (q : Query)
    (h : e.is_trained = false) : estimate now e q = fallback_estimate q := by
  simp [estimate, h]

theorem estimate_of_trained (now : Clock) (e : EstimatorSt Predictor) (q : Query)
    (h : e.is_trained = true) :
    estimate now e q = clampCardinality (realTrunc (expm1 (e.model (extract now q)))) := by
  simp [estimate, h]

theorem clampCardinality_bounds (c : ℤ) :
    1 ≤ clampCardinality c ∧ clampCardinality c ≤ 10000000 := by
  constructor
  · exact le_max_left _ _
  · exact max_le (by norm_num) (min_le_right _ _)

theorem foldl_mul_filterMultiplier (fs : List Filter) (a : ℚ) :
    fs.foldl (fun s f => s * filterMultiplier f) a = a * (fs.map filterMultiplier).prod := by
  induction fs generalizing a with
  | nil => simp
  | cons f fs ih => simp [List.foldl_cons, ih, mul_assoc]

theorem ratTrunc_nonneg (x : ℚ) (h : 0 ≤ x) : 0 ≤ ratTrunc x := by
  rw [ratTrunc, if_pos h]
  exact Int.floor_nonneg.mpr h

theorem ratTrunc_of_eq_int (x : ℚ) (n : ℤ) (h : x = (n : ℚ)) : ratTrunc x = n := by
  subst h
  rcases le_or_lt 0 ((n : ℚ)) with h0 | h0
  · rw [ratTrunc, if_pos h0, Int.floor_intCast]
  · rw [ratTrunc, if_neg (not_le.mpr h0), Int.ceil_intCast]

theorem load_query_logs_eq_filterMap {R : Type} (p : String → Option R) (lines : List String) :
    load_query_logs p lines =
      ((lines.map strip).filter fun t => t ≠ "").filterMap p := by
  induction lines with
  | nil => simp [load_query_logs]
  | cons l ls ih =>
    by_cases h : strip l = ""
    · simpa [load_query_logs, List.filterMap_cons, h] using ih
    · cases hp : p (strip l) <;>
        simp_all [load_query_logs, List.filterMap_cons, h, hp]

theorem load_query_logs_length {R : Type} (p : String → Option R) (lines : List String) :
    (load_query_logs p lines).length =
      ((lines.map strip).filter fun t => t ≠ "" ∧ (p t).isSome).length := by
  induction lines with
  | nil => simp [load_query_logs]
  | cons l ls ih =>
    by_cases h : strip l = ""
    · simpa [load_query_logs, List.filterMap_cons, h] using ih
    · cases hp : p (strip l) <;>
        simp_all [load_query_logs, List.filterMap_cons, h, hp]

/-! ## Claim theorems -/

/-- C5: `_estimate_filter_selectivity` returns exactly the product of
the per-filter multipliers — 0.1 for `=`, 0.5 for `<`, `>`, `<=`, `>=`,
0.3 for `LIKE`, and 1 (unchanged) for any other operator — started at
1.0 and floored at 0.001; on the empty filter list it returns exactly
1.0. -/
theorem filter_selectivity_is_floored_product :
    (∀ fs : List Filter,
        estimate_filter_selectivity fs =
          max ((fs.map filterMultiplier).prod) (1/1000)) ∧
    estimate_filter_selectivity [] = 1 ∧
    (∀ c, filterMultiplier ⟨c, some "="⟩ = 1/10) ∧
    (∀ c, filterMultiplier ⟨c, some "<"⟩ = 1/2) ∧
    (∀ c, filterMultiplier ⟨c, some ">"⟩ = 1/2) ∧
    (∀ c, filterMultiplier ⟨c, some "<="⟩ = 1/2) ∧
    (∀ c, filterMultiplier ⟨c, some ">="⟩ = 1/2) ∧
    (∀ c, filterMultiplier ⟨c, some "LIKE"⟩ = 3/10) ∧
    (∀ c op, op ≠ "=" → op ≠ "<" → op ≠ ">" → op ≠ "<=" → op ≠ ">=" → op ≠ "LIKE" →
        filterMultiplier ⟨c, some op⟩ = 1) := by
  refine ⟨?_, by simp [estimate_filter_selectivity], ?_, ?_, ?_, ?_, ?_, ?_, ?_⟩
  · intro fs
    cases fs with
    | nil =>
      rw [estimate_filter_selectivity, if_pos rfl]
      rw [show ((List.map filterMultiplier ([] : List Filter)).prod : ℚ) = 1 by simp]
      rw [max_eq_left (by norm_num)]
    | cons f fs =>
      rw [estimate_filter_selectivity, if_neg (by simp)]
      rw [foldl_mul_filterMultiplier, one_mul]
  · intro c; simp [filterMultiplier]
  · intro c; simp [filterMultiplier]
  · intro c; simp [filterMultiplier]
  · intro c; simp [filterMultiplier]
  · intro c; simp [filterMultiplier]
  · intro c; simp [filterMultiplier]
  · intro c op h1 h2 h3 h4 h5 h6
    simp [filterMultiplier, h1, h2, h3, h4, h5, h6]

/-- C5 witness: the spec's three concrete cases and an unrecognized
operator, via the product theorem. -/
theorem filter_selectivity_is_floored_product_witness :
    estimate_filter_selectivity [⟨some "city", some "="⟩] = 1/10 ∧
    estimate_filter_selectivity [⟨some "city", some "="⟩, ⟨some "age", some "<"⟩] = 1/20 ∧
    estimate_filter_selectivity [] = 1 ∧
    filterMultiplier ⟨some "tag", some "IN"⟩ = 1 := by
  refine ⟨?_, ?_, filter_selectivity_is_floored_product.2.1, ?_⟩
  · rw [filter_selectivity_is_floored_product.1]
    rw [show (List.map filterMultiplier [⟨some "city", some "="⟩]).prod = 1/10 by
      simp [filterMultiplier]]
    rw [max_eq_left (by norm_num)]
  · rw [filter_selectivity_is_floored_product.1]
    rw [show (List.map filterMultiplier
        [⟨some "city", some "="⟩, ⟨some "age", some "<"⟩]).prod = 1/20 by
      simp [filterMultiplier]; norm_num]
    rw [max_eq_left (by norm_num)]
  · exact filter_selectivity_is_floored_product.2.2.2.2.2.2.2.2 (some "tag") "IN"
      (by decide) (by decide) (by decide) (by decide) (by decide) (by decide)

/-- C2 (corrected): `extract` is a pure function of the query and the
current wall-clock reading: every feature other than `hour_of_day` and
`day_of_week` depends only on the query, and those two equal the hour
and weekday read from the clock, so two calls with the same query and
the same clock reading yield identical feature dictionaries. -/
theorem extract_pure_up_to_clock :
    ∀ (t t' : Clock) (q : Query),
      clearTemporal (extract t q) = clearTemporal (extract t' q) ∧
      (extract t q).hour_of_day = (t.hour : ℚ) ∧
      (extract t q).day_of_week = (t.weekday : ℚ) := by
  intro t t' q
  exact ⟨rfl, rfl, rfl⟩

/-- C2 counterexample: the same query extracted at wall-clock hour 0
and at hour 1 yields different feature dictionaries, so `extract` does
depend on the current wall-clock time. -/
theorem extract_clock_dependence_cex :
    extract clk0 emptyQuery ≠ extract clk1 emptyQuery := by
  decide

/-- C8: `load_query_logs` returns exactly the records whose stripped
lines are non-blank and parse as JSON, in file order, skipping blank
and malformed lines without aborting; its length counts only those
records, and the trainer's min-samples check compares exactly that
count against the threshold. -/
theorem load_query_logs_skips_malformed :
    ∀ (R : Type) (p : String → Option R) (lines : List String),
      load_query_logs p lines =
        ((lines.map strip).filter fun t => t ≠ "").filterMap p ∧
      (load_query_logs p lines).length =
        ((lines.map strip).filter fun t => t ≠ "" ∧ (p t).isSome).length ∧
      ∀ minSamples : Nat,
        trainerMain true p lines minSamples =
          if (load_query_logs p lines).length < minSamples then
            TrainerOutcome.insufficientData (load_query_logs p lines).length minSamples
          else TrainerOutcome.success (load_query_logs p lines).length := by
  intro R p lines
  refine ⟨load_query_logs_eq_filterMap p lines, load_query_logs_length p lines, ?_⟩
  intro minSamples
  simp [trainerMain]

/-- C9: with a missing log file, or fewer valid records than
`min_samples`, the trainer exits non-zero (reporting the found count
and the threshold) and never reaches fit/evaluate/save; with at least
`min_samples` valid records it runs extraction, split, fit, evaluation
and save to completion and exits 0. -/
theorem trainer_min_samples_gate :
    (∀ (R : Type) (p : String → Option R) (lines : List String) (minSamples : Nat),
        trainerMain false p lines minSamples = TrainerOutcome.missingFile ∧
        exitCode (trainerMain false p lines minSamples) ≠ 0 ∧
        modelSaved (trainerMain false p lines minSamples) = false) ∧
    (∀ (R : Type) (p : String → Option R) (lines : List String) (minSamples : Nat),
        (load_query_logs p lines).length < minSamples →
        trainerMain true p lines minSamples =
          TrainerOutcome.insufficientData (load_query_logs p lines).length minSamples ∧
        exitCode (trainerMain true p lines minSamples) ≠ 0 ∧
        modelSaved (trainerMain true p lines minSamples) = false) ∧
    (∀ (R : Type) (p : String → Option R) (lines : List String) (minSamples : Nat),
        minSamples ≤ (load_query_logs p lines).length →
        trainerMain true p lines minSamples =
          TrainerOutcome.success (load_query_logs p lines).length ∧
        exitCode (trainerMain true p lines minSamples) = 0 ∧
        modelSaved (trainerMain true p lines minSamples) = true) := by
  refine ⟨?_, ?_, ?_⟩
  · intro R p lines minSamples
    exact ⟨rfl, by simp [trainerMain, exitCode], by simp [trainerMain, modelSaved]⟩
  · intro R p lines minSamples h
    simp [trainerMain, h, exitCode, modelSaved]
  · intro R p lines minSamples h
    simp [trainerMain, Nat.not_lt.mpr h, exitCode, modelSaved]

/-- C9 witness: a missing file, a run with one valid record of two
required, and a run with two valid records of two required. -/
theorem trainer_min_samples_gate_witness :
    trainerMain false (fun _ => some ()) ["a"] 1 = TrainerOutcome.missingFile ∧
    trainerMain true (fun s => if s = "x" then some () else none) ["x", "oops", ""] 2 =
      TrainerOutcome.insufficientData 1 2 ∧
    exitCode (trainerMain true (fun s => if s = "x" then some () else none)
      ["x", "oops", ""] 2) ≠ 0 ∧
    trainerMain true (fun s => if s = "x" then some () else none) ["x", "x", "oops"] 2 =
      TrainerOutcome.success 2 ∧
    exitCode (trainerMain true (fun s => if s = "x" then some () else none)
      ["x", "x", "oops"] 2) = 0 := by
  have h1 := trainer_min_samples_gate.2.1 Unit
    (fun s => if s = "x" then some () else none) ["x", "oops", ""] 2 (by decide)
  have h2 := trainer_min_samples_gate.2.2 Unit
    (fun s => if s = "x" then some () else none) ["x", "x", "oops"] 2 (by decide)
  refine ⟨(trainer_min_samples_gate.1 Unit (fun _ => some ()) ["a"] 1).1,
    h1.1.trans (by decide), h1.2.1, h2.1.trans (by decide), h2.2.1⟩

/-- C10: with no trained model and no `table_stats` entry — or a
`table_stats` dictionary without `row_count` — `estimate` uses the
default table size 1000, returning `int(1000 * 0.5 ** num_filters)`;
with no filters as well it returns exactly 1000. -/
theorem fallback_default_table_size :
    (∀ (now : Clock) (e : EstimatorSt Predictor) (q : Query),
        e.is_trained = false → q.table_stats = none →
        estimate now e q = ratTrunc (1000 * (1/2) ^ (q.filters.getD []).length)) ∧
    (∀ (now : Clock) (e : EstimatorSt Predictor) (q : Query) (ts : TableStats),
        e.is_trained = false → q.table_stats = some ts → ts.row_count = none →
        estimate now e q = ratTrunc (1000 * (1/2) ^ (q.filters.getD []).length)) ∧
    (∀ (now : Clock) (e : EstimatorSt Predictor) (q : Query),
        e.is_trained = false → q.table_stats = none → q.filters.getD [] = [] →
        estimate now e q = 1000) := by
  refine ⟨?_, ?_, ?_⟩
  · intro now e q h hts
    rw [estimate_of_untrained now e q h]
    simp [fallback_estimate, hts]
  · intro now e q ts h hts hrc
    rw [estimate_of_untrained now e q h]
    simp [fallback_estimate, hts, hrc]
  · intro now e q h hts hf
    rw [estimate_of_untrained now e q h]
    simp [fallback_estimate, hts, hf]
    decide

/-- C10 witness: an untrained estimator on the empty query returns
exactly 1000. -/
theorem fallback_default_table_size_witness :
    estimate clk0 untrainedEstimator emptyQuery = 1000 :=
  fallback_default_table_size.2.2 clk0 untrainedEstimator emptyQuery rfl rfl rfl

/-- C7: when the model is untrained, `estimate` returns the fallback,
and for every query providing `table_stats.row_count = r` the fallback
is exactly `int(r * 0.5 ** num_filters)`. -/
theorem fallback_formula :
    (∀ (now : Clock) (e : EstimatorSt Predictor) (q : Query),
        e.is_trained = false → estimate now e q = fallback_estimate q) ∧
    (∀ (q : Query) (ts : TableStats) (r : ℚ),
        q.table_stats = some ts → ts.row_count = some r →
        fallback_estimate q = ratTrunc (r * (1/2) ^ (q.filters.getD []).length)) := by
  refine ⟨fun now e q h => estimate_of_untrained now e q h, ?_⟩
  intro q ts r hts hrc
  simp [fallback_estimate, hts, hrc]

/-- C7 witness: row_count 10000 with two filters gives exactly
`int(10000 * 0.25) = 2500`. -/
theorem fallback_formula_witness :
    estimate clk0 untrainedEstimator twoFilterQuery = fallback_estimate twoFilterQuery ∧
    fallback_estimate twoFilterQuery = ratTrunc (10000 * (1/2) ^ 2) ∧
    fallback_estimate twoFilterQuery = 2500 := by
  have h : fallback_estimate twoFilterQuery = ratTrunc (10000 * (1/2) ^ 2) :=
    fallback_formula.2 twoFilterQuery ⟨some 10000, some 5000⟩ 10000 rfl rfl
  exact ⟨fallback_formula.1 clk0 untrainedEstimator twoFilterQuery rfl, h,
    h.trans (ratTrunc_of_eq_int _ 2500 (by norm_num))⟩

/-- C1 (corrected): on the trained path `estimate` is clamped into
`[1, 10_000_000]`, hence ≥ 1; on the untrained path it returns the
unclamped fallback `int(table_size * 0.5 ** num_filters)`, which is
non-negative whenever the effective table size is non-negative but can
be 0 — when `table_stats.row_count` is 0, or when
`table_size * 0.5 ** num_filters` truncates to 0. -/
theorem estimate_bounds_amended :
    (∀ (now : Clock) (e : EstimatorSt Predictor) (q : Query),
        e.is_trained = true →
        1 ≤ estimate now e q ∧ estimate now e q ≤ 10000000) ∧
    (∀ (now : Clock) (e : EstimatorSt Predictor) (q : Query),
        e.is_trained = false → estimate now e q = fallback_estimate q) ∧
    (∀ q : Query,
        0 ≤ (q.table_stats.getD ⟨none, none⟩).row_count.getD 1000 →
        0 ≤ fallback_estimate q) := by
  refine ⟨?_, fun now e q h => estimate_of_untrained now e q h, ?_⟩
  · intro now e q h
    rw [estimate_of_trained now e q h]
    exact clampCardinality_bounds _
  · intro q h
    have hx : 0 ≤ ((q.table_stats.getD ⟨none, none⟩).row_count.getD 1000 : ℚ) *
        (1/2) ^ (q.filters.getD []).length :=
      mul_nonneg h (pow_nonneg (by norm_num) _)
    show 0 ≤ ratTrunc _
    exact ratTrunc_nonneg _ hx

/-- C1 counterexample: an untrained estimator on a query whose
`table_stats.row_count` is 0 returns 0, not an integer ≥ 1. -/
theorem estimate_returns_zero_cex :
    estimate clk0 untrainedEstimator zeroRowQuery = 0 ∧
    ¬ (1 ≤ estimate clk0 untrainedEstimator zeroRowQuery) := by
  have h : estimate clk0 untrainedEstimator zeroRowQuery = fallback_estimate zeroRowQuery :=
    estimate_of_untrained _ _ _ rfl
  have h0 : fallback_estimate zeroRowQuery = 0 := by
    show ratTrunc ((0 : ℚ) * (1/2) ^ (0 : ℕ)) = 0
    exact ratTrunc_of_eq_int _ 0 (by norm_num)
  rw [h, h0]
  norm_num

/-- C1 witness: concrete instances of each amended conjunct. -/
theorem estimate_bounds_amended_witness :
    (1 ≤ estimate clk0 trainedEstimator emptyQuery ∧
      estimate clk0 trainedEstimator emptyQuery ≤ 10000000) ∧
    estimate clk0 untrainedEstimator emptyQuery = fallback_estimate emptyQuery ∧
    0 ≤ fallback_estimate emptyQuery :=
  ⟨estimate_bounds_amended.1 clk0 trainedEstimator emptyQuery rfl,
   estimate_bounds_amended.2.1 clk0 untrainedEstimator emptyQuery rfl,
   estimate_bounds_amended.2.2 emptyQuery (by decide)⟩

/-- C6: on the trained path the estimate is the clamp to
`[1, 10_000_000]` of the truncated `expm1` of the raw log-space score —
the exact inverse of the `log1p` transform applied to the training
targets — hence always lies in `[1, 10_000_000]`; and `expm1` undoes
`log1p` on the non-negative cardinalities used at training time. -/
theorem estimate_trained_expm1_clamp :
    (∀ (now : Clock) (e : EstimatorSt Predictor) (q : Query),
        e.is_trained = true →
        estimate now e q =
          clampCardinality (realTrunc (expm1 (e.model (extract now q)))) ∧
        1 ≤ estimate now e q ∧ estimate now e q ≤ 10000000) ∧
    (∀ x : ℝ, 0 ≤ x → expm1 (log1p x) = x) := by
  constructor
  · intro now e q h
    refine ⟨estimate_of_trained now e q h, ?_⟩
    rw [estimate_of_trained now e q h]
    exact clampCardinality_bounds _
  · intro x hx
    have h1 : (0:ℝ) < 1 + x := by linarith
    rw [expm1, log1p, Real.exp_log h1]
    ring

/-- C6 witness: a trained estimator with raw score 0 everywhere, and
the inversion at cardinality 3. -/
theorem estimate_trained_expm1_clamp_witness :
    (estimate clk0 trainedEstimator emptyQuery =
        clampCardinality (realTrunc (expm1 (trainedEstimator.model
          (extract clk0 emptyQuery)))) ∧
      1 ≤ estimate clk0 trainedEstimator emptyQuery ∧
      estimate clk0 trainedEstimator emptyQuery ≤ 10000000) ∧
    expm1 (log1p 3) = 3 :=
  ⟨estimate_trained_expm1_clamp.1 clk0 trainedEstimator emptyQuery rfl,
   estimate_trained_expm1_clamp.2 3 (by norm_num)⟩

/-- C3 (corrected): `load` raises on a malformed artifact, but its
field assignments are sequential, so the pre-call state is only fully
preserved when unpickling fails or the `model` key itself is missing;
when `model` is present and `feature_names` (or `is_trained`) is
missing, the error leaves the earlier assignments in place. -/
theorem load_error_states_amended :
    (∀ (M : Type) (st : EstimatorSt M), load st none = (some "ModelLoadError", st)) ∧
    (∀ (M : Type) (st : EstimatorSt M) (fns : Option (List String)) (it : Option Bool),
        load st (some ⟨none, fns, it⟩) = (some "KeyError: model", st)) ∧
    (∀ (M : Type) (st : EstimatorSt M) (m : M) (it : Option Bool),
        load st (some ⟨some m, none, it⟩) =
          (some "KeyError: feature_names", { st with model := m })) ∧
    (∀ (M : Type) (st : EstimatorSt M) (m : M) (fns : List String),
        load st (some ⟨some m, some fns, none⟩) =
          (some "KeyError: is_trained", { st with model := m, feature_names := fns })) ∧
    (∀ (M : Type) (st : EstimatorSt M) (m : M) (fns : List String) (b : Bool),
        load st (some ⟨some m, some fns, some b⟩) = (none, ⟨m, fns, b⟩)) :=
  ⟨fun _ _ => rfl, fun _ _ _ _ => rfl, fun _ _ _ _ => rfl,
   fun _ _ _ _ => rfl, fun _ _ _ _ _ => rfl⟩

/-- C3 counterexample: loading an artifact that holds a `model` entry
but lacks the `feature_names` key raises, yet leaves the estimator's
`model` field already overwritten — the pre-call state is not
restored. -/
theorem load_not_atomic_cex :
    (load (⟨0, [], false⟩ : EstimatorSt ℕ) (some ⟨some 7, none, none⟩)).1.isSome = true ∧
    (load (⟨0, [], false⟩ : EstimatorSt ℕ) (some ⟨some 7, none, none⟩)).2.model = 7 ∧
    (load (⟨0, [], false⟩ : EstimatorSt ℕ) (some ⟨some 7, none, none⟩)).2 ≠
      (⟨0, [], false⟩ : EstimatorSt ℕ) := by
  decide

/-- C4 (code bug): `train` on the source's own sample log stores the
first query's dictionary keys as `feature_names`, which differ from the
eleven feature names of the extracted feature dictionary. -/
theorem train_feature_names_bug :
    (train clk0 [sampleLog]).map TrainOutput.feature_names =
      Except.ok ["filters", "joins", "aggregations", "table_stats"] ∧
    (["filters", "joins", "aggregations", "table_stats"] : List String) ≠ featureNames := by
  constructor
  · rfl
  · decide

end CardEst
